import Mathlib

/-!
Verification of the MC Alger Store API backend (`main.py`, `schemas.py`).

The embedding models documents as association lists of field name / value pairs,
the Mongo store as a map from collection names to lists of documents together
with a counter generating fresh ObjectIds, and each FastAPI handler as a pure
function from a store and its request data to an `Except` result: an `Err`
outcome corresponds to the request aborting (HTTPException, an uncaught bson
`InvalidId`, or a pydantic validation failure) with no change to the store,
while an `ok` outcome carries the updated store.

Numeric values (Python floats and ints) are modelled as `Rat` and `Int`.
The helpers `create_document` and `get_documents` live in `database.py`, which
is not among the provided source files; they are modelled from the spec, as
noted on their doc comments, and likewise the store-side evaluation of Mongo
filter documents and the `EmailStr` syntax check, which happen in external
dependencies.
-/

set_option maxRecDepth 4000
set_option linter.unusedVariables false

namespace MCA

/-- Hexadecimal-digit test used for BSON ObjectId validity. -/
def isHexDigit (c : Char) : Bool :=
  (48 ≤ c.toNat && c.toNat ≤ 57) || (97 ≤ c.toNat && c.toNat ≤ 102) ||
  (65 ≤ c.toNat && c.toNat ≤ 70)

/-- The lowercase hexadecimal digit character for a value below 16. -/
def hexDigitChar (d : Nat) : Char :=
  if d < 10 then Char.ofNat (48 + d) else Char.ofNat (87 + d)

/-- Numeric value of a hexadecimal digit character (both cases accepted,
mirroring that `ObjectId` accepts mixed-case hex strings). -/
def hexVal (c : Char) : Nat :=
  if 48 ≤ c.toNat && c.toNat ≤ 57 then c.toNat - 48
  else if 97 ≤ c.toNat && c.toNat ≤ 102 then c.toNat - 87
  else c.toNat - 55

/-- Fixed-width lowercase hexadecimal rendering (most significant digit first). -/
def hexRender : Nat → Nat → List Char
  | 0, _ => []
  | w + 1, v => hexRender w (v / 16) ++ [hexDigitChar (v % 16)]

/-- `str()` form of the BSON ObjectId numbered `n`: 24 lowercase hex characters.
The embedding identifies ObjectIds with the natural numbers handed out by the
store counter. -/
def oidString (n : Nat) : String := String.mk (hexRender 24 n)

/-- Numeric value of a hex string, as used to compare a parsed `ObjectId` with
stored ones (ObjectId equality is case-insensitive on the hex spelling). -/
def hexParse (s : String) : Nat := s.toList.foldl (fun a c => a * 16 + hexVal c) 0

/-- `ObjectId(s)` succeeds iff `s` is a 24-character hexadecimal string;
otherwise the constructor raises `bson.errors.InvalidId`. -/
def isValidObjectId (s : String) : Bool :=
  s.toList.length == 24 && s.toList.all isHexDigit

/-- A product image record (`ProductImage` in schemas.py). -/
structure ProductImage where
  url : String
  alt : Option String := none
deriving DecidableEq, Repr

/-- A validated order line item (`OrderItem` in schemas.py). -/
structure OrderItem where
  product_id : String
  title : String
  price : Rat
  size : Option String := none
  qty : Int := 1
deriving DecidableEq, Repr

/-- Field values occurring in stored documents of this application. -/
inductive Value where
  | vNull
  | vStr (s : String)
  | vRat (q : Rat)
  | vInt (n : Int)
  | vBool (b : Bool)
  | vStrList (l : List String)
  | vImages (l : List ProductImage)
  | vItems (l : List OrderItem)
  | vDict (l : List (String × String))
  | vOid (n : Nat)
deriving DecidableEq, Repr

/-- A stored document: an association list of field names and values,
in Python dict insertion order. -/
abbrev Doc := List (String × Value)

/-- `doc.get(k)`: the value of the first binding of `k`, if any. -/
def lookupField (d : Doc) (k : String) : Option Value :=
  (d.find? (fun p => p.1 == k)).map (fun p => p.2)

/-- `doc[k] = v`: replace the binding of `k` in place if present, else append
it (Python dict assignment preserves insertion order). -/
def setField (d : Doc) (k : String) (v : Value) : Doc :=
  if d.any (fun p => p.1 == k) then
    d.map (fun p => if p.1 == k then (k, v) else p)
  else d ++ [(k, v)]

/-- `doc.pop(k, None)`: the document without any binding of `k`. -/
def removeField (d : Doc) (k : String) : Doc := d.filter (fun p => p.1 != k)

/-- An optional string dumped into a document (`None` becomes null). -/
def optStrV : Option String → Value
  | none => Value.vNull
  | some s => Value.vStr s

/-- An optional opaque dict (shipping address) dumped into a document. -/
def optDictV : Option (List (String × String)) → Value
  | none => Value.vNull
  | some l => Value.vDict l

/-- Python `str(doc.get("_id"))`. Stored documents always carry an
ObjectId-valued `_id`; other cases render as `str(None)` does. -/
def idString : Option Value → String
  | some (Value.vOid n) => oidString n
  | _ => "None"

/-- `to_public` from main.py: on a non-empty document, set `id` to the string
form of `_id` and drop the `_id` key; an empty (falsy) document is returned
unchanged. -/
def to_public (d : Doc) : Doc :=
  if d.isEmpty then d
  else removeField (setField d "id" (Value.vStr (idString (lookupField d "_id")))) "_id"

/-- Request-aborting outcomes: HTTP 500 "Database not configured", an uncaught
`bson.errors.InvalidId`, HTTP 404, and a pydantic validation failure. -/
inductive Err where
  | dbNotConfigured
  | invalidId
  | notFound
  | validationError
deriving DecidableEq, Repr

/-- The document store: whether the client is configured, the documents of
each named collection, and the counter generating fresh ObjectIds. -/
structure Store where
  configured : Bool
  colls : String → List Doc
  counter : Nat

/-- Append a document to one collection and advance the ObjectId counter. -/
def Store.insert (st : Store) (coll : String) (d : Doc) : Store :=
  { st with
    colls := fun c => if c = coll then st.colls c ++ [d] else st.colls c,
    counter := st.counter + 1 }

/-- Modelled from the spec: `create_document` is defined in `database.py`,
which is not among the provided source files. Per spec section 4.2, insert
persists the entity as one new document in the named collection and returns the
store-generated unique identifier as a string; per section 7, an operation
against an unconfigured/unreachable store fails immediately with the
store-unavailable signal and persists nothing. The store attaches the fresh
ObjectId as the leading `_id` field of the inserted document. -/
def create_document (st : Store) (coll : String) (d : Doc) :
    Except Err (Store × String) :=
  if st.configured then
    Except.ok (st.insert coll (("_id", Value.vOid st.counter) :: d),
      oidString st.counter)
  else Except.error Err.dbNotConfigured

/-- The filter dict built by `list_products`: a key is present (`some`) exactly
when the corresponding condition was added to `filter_dict`. -/
structure ProductFilter where
  q : Option String := none
  category : Option String := none
  color : Option String := none
  collection : Option String := none
  size : Option String := none
deriving DecidableEq, Repr

/-- Whether the first character list starts the second. -/
def startsWithChars : List Char → List Char → Bool
  | [], _ => true
  | _ :: _, [] => false
  | a :: as, b :: bs => (a == b) && startsWithChars as bs

/-- Whether the first character list occurs contiguously in the second. -/
def hasSubChars : List Char → List Char → Bool
  | pat, [] => pat.isEmpty
  | pat, c :: rest => startsWithChars pat (c :: rest) || hasSubChars pat rest

/-- Case-insensitive substring test, modelling the `$regex`/`$options: i`
title condition of spec section 4.2 on plain (non-metacharacter) patterns. -/
def containsCI (t pat : String) : Bool :=
  hasSubChars pat.toLower.toList t.toLower.toList

/-- A condition attached to an optional filter key: an absent key imposes no
condition. -/
def condOpt (c : String → Doc → Bool) (o : Option String) (d : Doc) : Bool :=
  match o with
  | none => true
  | some s => c s d

/-- The free-text title condition of the filter dict. -/
def titleCond (s : String) (d : Doc) : Bool :=
  match lookupField d "title" with
  | some (Value.vStr t) => containsCI t s
  | _ => false

/-- A Mongo equality condition on a scalar string field. -/
def eqCond (field : String) (s : String) (d : Doc) : Bool :=
  lookupField d field == some (Value.vStr s)

/-- A Mongo equality condition on the array field `sizes`: membership. -/
def sizeCond (s : String) (d : Doc) : Bool :=
  match lookupField d "sizes" with
  | some (Value.vStrList l) => l.contains s
  | _ => false

/-- Modelled from the spec: the filter document is evaluated inside the store
(an external collaborator). Per spec section 4.2, the free-text title condition
is a case-insensitive substring match, the other conditions are equality (on
the array field `sizes`, membership), and all supplied conditions are combined
with logical AND. -/
def matchesFilter (f : ProductFilter) (d : Doc) : Bool :=
  condOpt titleCond f.q d &&
  condOpt (eqCond "category") f.category d &&
  condOpt (eqCond "color") f.color d &&
  condOpt (eqCond "collection") f.collection d &&
  condOpt sizeCond f.size d

/-- Modelled from the spec: `get_documents` is defined in `database.py`, which
is not among the provided source files. Per spec section 4.2 it executes the
filter query against the named collection and returns the matching stored
documents (the public `id` mapping is applied afterwards by the caller in
main.py); per section 7 an unconfigured store is a surfaced fatal condition. -/
def get_documents (st : Store) (coll : String) (f : ProductFilter) :
    Except Err (List Doc) :=
  if st.configured then Except.ok ((st.colls coll).filter (matchesFilter f))
  else Except.error Err.dbNotConfigured

/-- Python truthiness of an optional string query parameter: `None` and the
empty string are falsy, so `if q:` skips both. -/
def truthy : Option String → Option String
  | none => none
  | some s => if s = "" then none else some s

/-- `list_products` from main.py: abort if the store is unconfigured, build
`filter_dict` from the truthy query parameters, query, and map the results
through `to_public`. -/
def list_products (st : Store) (q category color size collection : Option String) :
    Except Err (List Doc) :=
  if st.configured then
    match get_documents st "product"
        { q := truthy q, category := truthy category, color := truthy color,
          collection := truthy collection, size := truthy size } with
    | Except.ok items => Except.ok (items.map to_public)
    | Except.error e => Except.error e
  else Except.error Err.dbNotConfigured

/-- `find_one({"_id": ObjectId(..)})` on a collection: the first document whose
`_id` equals the given ObjectId. -/
def findById (st : Store) (coll : String) (n : Nat) : Option Doc :=
  (st.colls coll).find? fun d =>
    decide (lookupField d "_id" = some (Value.vOid n))

/-- `get_product` from main.py: abort if the store is unconfigured; then
`ObjectId(product_id)` raises `InvalidId` on a malformed identifier; then the
product is looked up, yielding 404 if absent and its public form otherwise. -/
def get_product (st : Store) (product_id : String) : Except Err Doc :=
  if st.configured then
    if isValidObjectId product_id then
      match findById st "product" (hexParse product_id) with
      | some d => Except.ok (to_public d)
      | none => Except.error Err.notFound
    else Except.error Err.invalidId
  else Except.error Err.dbNotConfigured

/-- The Review payload (`Review` in schemas.py, `ReviewIn` in main.py). -/
structure Review where
  product_id : String
  user_name : String
  rating : Int
  comment : Option String := none
deriving DecidableEq, Repr

/-- Pydantic validation of a Review body: the numeric constraint is
`rating : int` with `ge=1, le=5`. -/
def validReview (r : Review) : Bool :=
  decide (1 ≤ r.rating) && decide (r.rating ≤ 5)

/-- `payload.model_dump()` for a Review, in field declaration order. -/
def reviewToDoc (r : Review) : Doc :=
  [("product_id", Value.vStr r.product_id), ("user_name", Value.vStr r.user_name),
   ("rating", Value.vInt r.rating), ("comment", optStrV r.comment)]

/-- `add_review` from main.py: abort if the store is unconfigured;
`ObjectId(product_id)` raises on a malformed identifier; 404 if the product
does not exist; otherwise the dumped payload, with `product_id` overwritten by
the path parameter, is inserted into the `review` collection. -/
def add_review (st : Store) (product_id : String) (payload : Review) :
    Except Err Store :=
  if st.configured then
    if isValidObjectId product_id then
      match findById st "product" (hexParse product_id) with
      | some _ =>
        match create_document st "review"
            (setField (reviewToDoc payload) "product_id" (Value.vStr product_id)) with
        | Except.ok (st', _) => Except.ok st'
        | Except.error e => Except.error e
      | none => Except.error Err.notFound
    else Except.error Err.invalidId
  else Except.error Err.dbNotConfigured

/-- The full request path of `POST /products/{product_id}/reviews`: FastAPI
validates the `ReviewIn` body before the handler body runs. -/
def post_review (st : Store) (product_id : String) (payload : Review) :
    Except Err Store :=
  if validReview payload then add_review st product_id payload
  else Except.error Err.validationError

/-- `wishlist_add` from main.py: the dumped `WishlistItem` is inserted
unconditionally (the handler itself performs no store check). -/
def wishlist_add (st : Store) (product_id : String) : Except Err Store :=
  match create_document st "wishlist" [("product_id", Value.vStr product_id)] with
  | Except.ok (st', _) => Except.ok st'
  | Except.error e => Except.error e

/-- One untyped line-item dict of a `CheckoutIn` body (`items : List[dict]`);
the embedding restricts the dict values to the types the handler converts
without raising. An absent key is `none`. -/
structure ItemDict where
  product_id : Option String := none
  title : Option String := none
  price : Option Rat := none
  size : Option String := none
  qty : Option Int := none
deriving DecidableEq, Repr

/-- The `CheckoutIn` body from main.py: a list of item dicts and optional
email and shipping address; it has no `total` field. -/
structure CheckoutIn where
  items : List ItemDict
  email : Option String := none
  shipping_address : Option (List (String × String)) := none
deriving DecidableEq, Repr

/-- The contribution of one item to the checkout total:
`float(it.get("price", 0)) * int(it.get("qty", 1))`. -/
def itemTotal (it : ItemDict) : Rat :=
  it.price.getD 0 * ((it.qty.getD 1 : Int) : Rat)

/-- The running total of the checkout loop, starting from `0.0`. -/
def computeTotal (items : List ItemDict) : Rat :=
  items.foldl (fun a it => a + itemTotal it) 0

/-- Pydantic construction of one `OrderItem` from the corresponding dict in
the handler: `product_id` and `title` are required strings, and `qty`
(defaulted to 1) must satisfy `ge=1`; otherwise the `Order` constructor raises
a validation error. -/
def toOrderItem (it : ItemDict) : Option OrderItem :=
  match it.product_id, it.title with
  | some pid, some t =>
    if 1 ≤ it.qty.getD 1 then
      some { product_id := pid, title := t, price := it.price.getD 0,
             size := it.size, qty := it.qty.getD 1 }
    else none
  | _, _ => none

/-- Conversion of the whole item list, failing if any item fails. -/
def mapOrderItems : List ItemDict → Option (List OrderItem)
  | [] => some []
  | it :: rest =>
    match toOrderItem it, mapOrderItems rest with
    | some oi, some l => some (oi :: l)
    | _, _ => none

/-- Decidable form of the per-item requirements of `toOrderItem`. -/
def itemsValid (l : List ItemDict) : Bool :=
  l.all fun it =>
    it.product_id.isSome && it.title.isSome && decide (1 ≤ it.qty.getD 1)

/-- Modelled from the spec: `Order.email` is an `EmailStr`, whose syntax check
is performed by the external email-validator package; modelled as requiring a
single `@` separating two nonempty parts, with `None` accepted. -/
def emailOk : Option String → Bool
  | none => true
  | some s =>
    match s.split (fun c => c = '@') with
    | [l, r] => !l.isEmpty && !r.isEmpty
    | _ => false

/-- `order.model_dump()` for the Order built by `checkout`, in field
declaration order; `user_id` stays at its default `None`, `currency` and
`status` at their defaults `"DZD"` and `"pending"`. -/
def orderToDoc (items : List OrderItem) (total : Rat) (email : Option String)
    (ship : Option (List (String × String))) : Doc :=
  [("user_id", Value.vNull), ("items", Value.vItems items),
   ("total", Value.vRat total), ("currency", Value.vStr "DZD"),
   ("status", Value.vStr "pending"), ("email", optStrV email),
   ("shipping_address", optDictV ship)]

/-- `checkout` from main.py: compute the total over the raw item dicts, build
the `Order` (whose pydantic validation may fail), and insert it via
`create_document` (the handler itself performs no store check), answering with
the new order identifier and the computed total. -/
def checkout (st : Store) (payload : CheckoutIn) :
    Except Err (Store × String × Rat) :=
  let total := computeTotal payload.items
  match mapOrderItems payload.items with
  | none => Except.error Err.validationError
  | some items =>
    if emailOk payload.email then
      match create_document st "order"
          (orderToDoc items total payload.email payload.shipping_address) with
      | Except.ok (st', oid) => Except.ok (st', oid, total)
      | Except.error e => Except.error e
    else Except.error Err.validationError

/-- A validated Product payload (`Product` in schemas.py), with the schema
defaults as field defaults. -/
structure Product where
  title : String
  description : Option String := none
  price : Rat
  category : String
  color : String
  collection : String
  sizes : List String := []
  images : List ProductImage := []
  rating : Rat := mkRat 24 5
  reviews_count : Int := 0
  in_stock : Bool := true
deriving DecidableEq, Repr

/-- The numeric field constraints of the Product schema: `price ge=0`,
`rating ge=0 le=5`, `reviews_count ge=0`. -/
def validProduct (p : Product) : Bool :=
  decide (0 ≤ p.price) && decide (0 ≤ p.rating) && decide (p.rating ≤ 5) &&
  decide (0 ≤ p.reviews_count)

/-- `p.model_dump()` for a Product, in field declaration order. -/
def productToDoc (p : Product) : Doc :=
  [("title", Value.vStr p.title), ("description", optStrV p.description),
   ("price", Value.vRat p.price), ("category", Value.vStr p.category),
   ("color", Value.vStr p.color), ("collection", Value.vStr p.collection),
   ("sizes", Value.vStrList p.sizes), ("images", Value.vImages p.images),
   ("rating", Value.vRat p.rating), ("reviews_count", Value.vInt p.reviews_count),
   ("in_stock", Value.vBool p.in_stock)]

/-- Well-formedness of a store reachable by this application: every stored
document carries an ObjectId `_id` older than the counter. -/
def StoreWF (st : Store) : Prop :=
  ∀ c : String, ∀ d ∈ st.colls c,
    ∃ k, k < st.counter ∧ lookupField d "_id" = some (Value.vOid k)

/-- The product-listing membership condition exactly as the claim states it:
every supplied parameter, including an empty string, contributes its
condition. -/
def claimedMatches (q category color collection size : Option String)
    (d : Doc) : Bool :=
  condOpt titleCond q d &&
  condOpt (eqCond "category") category d &&
  condOpt (eqCond "color") color d &&
  condOpt (eqCond "collection") collection d &&
  condOpt sizeCond size d

/-- A condition attached to an optional parameter under the amended reading:
an absent or empty parameter imposes no condition. -/
def amendedOpt (c : String → Doc → Bool) (o : Option String) (d : Doc) : Bool :=
  match o with
  | none => true
  | some s => if s = "" then true else c s d

/-- The amended product-listing membership condition: a parameter that is
absent or empty imposes no condition; the rest as claimed. -/
def amendedMatches (q category color collection size : Option String)
    (d : Doc) : Bool :=
  amendedOpt titleCond q d &&
  amendedOpt (eqCond "category") category d &&
  amendedOpt (eqCond "color") color d &&
  amendedOpt (eqCond "collection") collection d &&
  amendedOpt sizeCond size d

/-- An empty configured store. -/
def emptyStore : Store := { configured := true, colls := fun _ => [], counter := 0 }

/-- An unconfigured store (`db is None`). -/
def offStore : Store := { configured := false, colls := fun _ => [], counter := 0 }

/-- The first seeded catalog product from main.py. -/
def seedHomeKit : Product :=
  { title := "MC Alger Home Kit 2024",
    description := some "Official home kit in green with red trim.",
    price := 12999, category := "t-shirt", color := "green", collection := "home",
    sizes := ["S", "M", "L", "XL"],
    images := [{ url := "https://images.unsplash.com/photo-1546519638-68e109498ffc",
                 alt := some "Home kit" }],
    rating := mkRat 49 10, reviews_count := 128, in_stock := true }

/-- The third seeded catalog product from main.py. -/
def retroHoodie : Product :=
  { title := "Retro 1990s Hoodie", price := 14999, category := "hoodie",
    color := "red", collection := "retro", sizes := ["S", "M", "L"],
    rating := mkRat 23 5, reviews_count := 52 }

/-- A configured store holding the two catalog products above. -/
def catalogStore : Store :=
  { configured := true,
    colls := fun c =>
      if c = "product" then
        [("_id", Value.vOid 0) :: productToDoc seedHomeKit,
         ("_id", Value.vOid 1) :: productToDoc retroHoodie]
      else [],
    counter := 2 }

/-- The checkout-total example of spec section 8:
items [{price:100, qty:2}, {price:50, qty:1}], completed with the product ids
and titles that Order validation requires. -/
def specItems : List ItemDict :=
  [{ product_id := some "p1", title := some "Home Kit", price := some 100,
     qty := some 2 },
   { product_id := some "p2", title := some "Hoodie", price := some 50,
     qty := some 1 }]

/-- A checkout body carrying the spec example items. -/
def specCheckout : CheckoutIn := { items := specItems }

/-- A syntactically valid CheckoutIn body whose single item dict is empty. -/
def emptyItemCheckout : CheckoutIn := { items := [{}] }

/-- A CheckoutIn body whose single item dict lacks its title. -/
def noTitleCheckout : CheckoutIn :=
  { items := [{ product_id := some "p1", price := some 100, qty := some 2 }] }

/-- A checkout body exercising the price/qty defaults: the first item carries
neither price nor qty, the second a price but no qty. -/
def defaultsCheckout : CheckoutIn :=
  { items := [{ product_id := some "p1", title := some "A" },
              { product_id := some "p2", title := some "B", price := some 50 }] }

/-- A validated review body whose own product_id field names something other
than the product addressed by the request path. -/
def sampleReview : Review :=
  { product_id := "client-supplied-id", user_name := "Amine", rating := 5,
    comment := some "Great kit" }

/-- A review body whose rating is out of range. -/
def badReview : Review := { product_id := "p", user_name := "Sara", rating := 7 }

end MCA

namespace MCA

theorem Store.insert_configured (st : Store) (coll : String) (d : Doc) :
    (st.insert coll d).configured = st.configured := rfl

theorem Store.insert_counter (st : Store) (coll : String) (d : Doc) :
    (st.insert coll d).counter = st.counter + 1 := rfl

theorem Store.insert_colls_self (st : Store) (coll : String) (d : Doc) :
    (st.insert coll d).colls coll = st.colls coll ++ [d] := by
  simp [Store.insert]

theorem hexVal_hexDigitChar : ∀ d < 16, hexVal (hexDigitChar d) = d := by decide

theorem isHexDigit_hexDigitChar : ∀ d < 16, isHexDigit (hexDigitChar d) = true := by
  decide

theorem hexRender_length : ∀ w v : Nat, (hexRender w v).length = w := by
  intro w
  induction w with
  | zero => intro v; rfl
  | succ w ih => intro v; simp [hexRender, ih]

theorem hexRender_all_hex : ∀ w v : Nat, (hexRender w v).all isHexDigit = true := by
  intro w
  induction w with
  | zero => intro v; rfl
  | succ w ih =>
    intro v
    have h16 : v % 16 < 16 := Nat.mod_lt _ (by norm_num)
    simp [hexRender, ih, isHexDigit_hexDigitChar _ h16]

theorem hexParse_hexRender : ∀ w v : Nat, v < 16 ^ w →
    (hexRender w v).foldl (fun a c => a * 16 + hexVal c) 0 = v := by
  intro w
  induction w with
  | zero =>
    intro v hv
    interval_cases v
    rfl
  | succ w ih =>
    intro v hv
    have hdiv : v / 16 < 16 ^ w := by
      rw [Nat.div_lt_iff_lt_mul (by norm_num)]
      calc v < 16 ^ (w + 1) := hv
        _ = 16 ^ w * 16 := by rw [pow_succ]
    have hmod : v % 16 < 16 := Nat.mod_lt _ (by norm_num)
    rw [hexRender, List.foldl_append, ih _ hdiv]
    simp only [List.foldl_cons, List.foldl_nil, hexVal_hexDigitChar _ hmod]
    omega

theorem hexParse_oidString (n : Nat) (h : n < 16 ^ 24) :
    hexParse (oidString n) = n :=
  hexParse_hexRender 24 n h

theorem isValidObjectId_oidString (n : Nat) :
    isValidObjectId (oidString n) = true := by
  show ((hexRender 24 n).length == 24 && (hexRender 24 n).all isHexDigit) = true
  rw [hexRender_length, hexRender_all_hex]
  rfl

theorem oidString_inj {m n : Nat} (hm : m < 16 ^ 24) (hn : n < 16 ^ 24)
    (h : oidString m = oidString n) : m = n := by
  have hp := hexParse_oidString m hm
  rw [h, hexParse_oidString n hn] at hp
  omega

theorem find?_append_of_forall_false {α : Type} (p : α → Bool) {l₁ : List α}
    (l₂ : List α) (h : ∀ x ∈ l₁, p x = false) :
    (l₁ ++ l₂).find? p = l₂.find? p := by
  induction l₁ with
  | nil => rfl
  | cons a l ih =>
    have ha : p a = false := h a (List.mem_cons_self a l)
    rw [List.cons_append, List.find?_cons_of_neg _ (by simp [ha]),
      ih (fun x hx => h x (List.mem_cons_of_mem a hx))]

theorem findById_insert_self (st : Store) (coll : String) (d : Doc)
    (hwf : StoreWF st) :
    findById (st.insert coll (("_id", Value.vOid st.counter) :: d)) coll st.counter
      = some (("_id", Value.vOid st.counter) :: d) := by
  unfold findById
  rw [Store.insert_colls_self]
  rw [find?_append_of_forall_false _ _ ?hold]
  case hold =>
    intro d' hd'
    obtain ⟨k, hk, hlk⟩ := hwf coll d' hd'
    simp [hlk]
    omega
  have hl : lookupField (("_id", Value.vOid st.counter) :: d) "_id"
      = some (Value.vOid st.counter) := rfl
  simp [List.find?_cons, hl]

theorem to_public_fresh (n : Nat) (d : Doc)
    (hid : d.all (fun p => p.1 != "id") = true)
    (hid2 : d.all (fun p => p.1 != "_id") = true) :
    to_public (("_id", Value.vOid n) :: d)
      = d ++ [("id", Value.vStr (oidString n))] := by
  have hany : ((("_id", Value.vOid n) :: d).any (fun p => p.1 == "id")) = false := by
    simp only [List.any_cons, Bool.or_eq_false_iff]
    refine ⟨by decide, ?_⟩
    rw [List.any_eq_false]
    intro x hx
    have hx1 := List.all_eq_true.1 hid x hx
    simpa using hx1
  have hl : lookupField (("_id", Value.vOid n) :: d) "_id"
      = some (Value.vOid n) := rfl
  have hkeep : d.filter (fun p => p.1 != "_id") = d :=
    List.filter_eq_self.2 (List.all_eq_true.1 hid2)
  simp only [to_public, List.isEmpty_cons, if_false, hl, idString, setField, hany,
    Bool.false_eq_true, removeField, List.cons_append, List.filter_cons,
    List.filter_append, hkeep]
  simp [hkeep]

/-- Claim C1: inserting a valid Product payload and retrieving it by the
returned identifier yields a public document whose fields equal the validated
input (schema defaults applied) followed by an `id` field equal to the returned
identifier string, with the internal `_id` key removed and no other field
transformed. -/
theorem C1_insert_then_get_roundtrip (st : Store) (p : Product)
    (hcfg : st.configured = true) (hwf : StoreWF st)
    (hctr : st.counter < 16 ^ 24) (hp : validProduct p = true) :
    ∃ st' oid,
      create_document st "product" (productToDoc p) = Except.ok (st', oid) ∧
      get_product st' oid =
        Except.ok (productToDoc p ++ [("id", Value.vStr oid)]) := by
  refine ⟨st.insert "product" (("_id", Value.vOid st.counter) :: productToDoc p),
    oidString st.counter, ?_, ?_⟩
  · simp [create_document, hcfg]
  · have hc2 : (st.insert "product"
        (("_id", Value.vOid st.counter) :: productToDoc p)).configured = true := hcfg
    have hfind := findById_insert_self st "product" (productToDoc p) hwf
    have hpub := to_public_fresh st.counter (productToDoc p) (by rfl) (by rfl)
    simp [get_product, hc2, isValidObjectId_oidString,
      hexParse_oidString st.counter hctr, hfind, hpub]

/-- Witness for C1 at the empty configured store and the first seed product. -/
theorem C1_witness :
    emptyStore.configured = true ∧ StoreWF emptyStore ∧
    emptyStore.counter < 16 ^ 24 ∧ validProduct seedHomeKit = true ∧
    ∃ st' oid,
      create_document emptyStore "product" (productToDoc seedHomeKit)
        = Except.ok (st', oid) ∧
      get_product st' oid =
        Except.ok (productToDoc seedHomeKit ++ [("id", Value.vStr oid)]) := by
  have hwf : StoreWF emptyStore := by
    intro c d hd
    simp [emptyStore] at hd
  exact ⟨rfl, hwf, by decide, by decide,
    C1_insert_then_get_roundtrip emptyStore seedHomeKit rfl hwf (by decide) (by decide)⟩

theorem condOpt_truthy (c : String → Doc → Bool) (o : Option String) (d : Doc) :
    condOpt c (truthy o) d = amendedOpt c o d := by
  cases o with
  | none => rfl
  | some s => by_cases hs : s = "" <;> simp [truthy, condOpt, amendedOpt, hs]

/-- Counterexample to C2 as stated: for the supplied query parameter
`category=""` the handler returns every product, because the empty string is
falsy in Python and `if category:` then adds no condition to the filter dict —
yet the first returned product does not satisfy the claimed equality condition
`category = ""`. -/
theorem C2_counterexample :
    list_products catalogStore none (some "") none none none =
      Except.ok [to_public (("_id", Value.vOid 0) :: productToDoc seedHomeKit),
        to_public (("_id", Value.vOid 1) :: productToDoc retroHoodie)] ∧
    claimedMatches none (some "") none none none
      (("_id", Value.vOid 0) :: productToDoc seedHomeKit) = false := by
  constructor
  · rfl
  · decide

/-- Claim C2 (amended): `list_products` returns exactly the products satisfying
the conjunction of the conditions contributed by the supplied non-empty
parameters (case-insensitive substring on title for q, equality for
category/color/collection, membership in sizes for size), in public form; an
absent or empty parameter imposes no condition, so with no parameters supplied
all products are returned. -/
theorem C2_list_products_filter (st : Store)
    (q category color size collection : Option String)
    (hcfg : st.configured = true) :
    list_products st q category color size collection =
      Except.ok (((st.colls "product").filter
        (amendedMatches q category color collection size)).map to_public) := by
  have hm : ∀ d, matchesFilter
      { q := truthy q, category := truthy category, color := truthy color,
        collection := truthy collection, size := truthy size } d
      = amendedMatches q category color collection size d := by
    intro d
    simp [matchesFilter, amendedMatches, condOpt_truthy]
  have hf : (st.colls "product").filter (matchesFilter
      { q := truthy q, category := truthy category, color := truthy color,
        collection := truthy collection, size := truthy size })
      = (st.colls "product").filter (amendedMatches q category color collection size) :=
    List.filter_congr (fun x _ => hm x)
  simp [list_products, get_documents, hcfg, hf]

/-- Witness for C2 at the two-product catalog store and the spec example
query `category=t-shirt AND color=green`, which selects exactly the home kit. -/
theorem C2_witness :
    catalogStore.configured = true ∧
    list_products catalogStore none (some "t-shirt") (some "green") none none =
      Except.ok (((catalogStore.colls "product").filter
        (amendedMatches none (some "t-shirt") (some "green") none none)).map
          to_public) ∧
    (catalogStore.colls "product").filter
        (amendedMatches none (some "t-shirt") (some "green") none none)
      = [("_id", Value.vOid 0) :: productToDoc seedHomeKit] := by
  refine ⟨rfl, C2_list_products_filter catalogStore none (some "t-shirt")
    (some "green") none none rfl, ?_⟩
  decide

theorem mapOrderItems_of_valid : ∀ l : List ItemDict, itemsValid l = true →
    ∃ items, mapOrderItems l = some items := by
  intro l
  induction l with
  | nil => intro _; exact ⟨[], rfl⟩
  | cons it rest ih =>
    intro h
    rw [itemsValid, List.all_cons, Bool.and_eq_true] at h
    obtain ⟨h1, h2⟩ := h
    obtain ⟨items, hi⟩ := ih h2
    cases hpid : it.product_id with
    | none => rw [hpid] at h1; simp at h1
    | some pid =>
      cases ht : it.title with
      | none => rw [ht] at h1; simp at h1
      | some t =>
        have hq : (1 : Int) ≤ it.qty.getD 1 := by
          rw [hpid, ht] at h1
          simpa using h1
        refine ⟨⟨pid, t, it.price.getD 0, it.size, it.qty.getD 1⟩ :: items, ?_⟩
        simp [mapOrderItems, toOrderItem, hpid, ht, hq, hi]

theorem checkout_ok (st : Store) (p : CheckoutIn) (hcfg : st.configured = true)
    (hi : itemsValid p.items = true) (he : emailOk p.email = true) :
    ∃ items, mapOrderItems p.items = some items ∧
      checkout st p = Except.ok
        (st.insert "order" (("_id", Value.vOid st.counter) ::
          orderToDoc items (computeTotal p.items) p.email p.shipping_address),
         oidString st.counter, computeTotal p.items) := by
  obtain ⟨items, hmi⟩ := mapOrderItems_of_valid p.items hi
  refine ⟨items, hmi, ?_⟩
  simp [checkout, hmi, he, create_document, hcfg]

theorem checkout_ok_inv (st : Store) (p : CheckoutIn) (st' : Store) (oid : String)
    (t : Rat) (h : checkout st p = Except.ok (st', oid, t)) :
    ∃ items, mapOrderItems p.items = some items ∧ st.configured = true ∧
      emailOk p.email = true ∧
      st' = st.insert "order" (("_id", Value.vOid st.counter) ::
        orderToDoc items (computeTotal p.items) p.email p.shipping_address) ∧
      oid = oidString st.counter ∧ t = computeTotal p.items := by
  cases hmi : mapOrderItems p.items with
  | none => simp [checkout, hmi] at h
  | some items =>
    by_cases he : emailOk p.email = true
    · by_cases hcfg : st.configured = true
      · simp only [checkout, hmi, he, if_true, create_document, hcfg] at h
        obtain ⟨h1, h2, h3⟩ := by simpa using h
        exact ⟨items, rfl, hcfg, he, h1.symm, h2.symm, h3.symm⟩
      · rw [Bool.not_eq_true] at hcfg
        simp [checkout, hmi, he, create_document, hcfg] at h
    · rw [Bool.not_eq_true] at he
      simp [checkout, hmi, he] at h

/-- Counterexample to C3 as stated: for the checkout payload whose single item
dict is empty, the handler computes no response and persists no Order: building
the pydantic `Order` fails because `OrderItem.product_id` and `title` are
required, so the request aborts with a validation error instead of returning a
total and an order identifier. -/
theorem C3_counterexample :
    checkout catalogStore emptyItemCheckout = Except.error Err.validationError :=
  rfl

/-- Claim C3 (amended): for every checkout payload whose item dicts each carry
a product_id and a title, whose qty (when present) is at least 1 and whose
email (when present) is syntactically valid, checkout computes the total as the
sum over items of price times qty (price defaulting to 0 and qty to 1; an empty
items list yields total 0), persists an Order whose status is "pending" and
whose currency is "DZD", and returns the computed total together with the new
order identifier; payloads violating these item conditions are instead rejected
by Order validation with nothing persisted. -/
theorem C3_checkout_total_and_order (st : Store) (p : CheckoutIn)
    (hcfg : st.configured = true) (hi : itemsValid p.items = true)
    (he : emailOk p.email = true) :
    ∃ st' items, mapOrderItems p.items = some items ∧
      checkout st p =
        Except.ok (st', oidString st.counter, computeTotal p.items) ∧
      st'.colls "order" = st.colls "order" ++
        [("_id", Value.vOid st.counter) ::
          orderToDoc items (computeTotal p.items) p.email p.shipping_address] ∧
      lookupField (orderToDoc items (computeTotal p.items) p.email
        p.shipping_address) "status" = some (Value.vStr "pending") ∧
      lookupField (orderToDoc items (computeTotal p.items) p.email
        p.shipping_address) "currency" = some (Value.vStr "DZD") ∧
      computeTotal [] = 0 := by
  obtain ⟨items, hmi, hck⟩ := checkout_ok st p hcfg hi he
  refine ⟨_, items, hmi, hck, ?_, rfl, rfl, rfl⟩
  rw [Store.insert_colls_self]

/-- Witness for C3 at the catalog store and the spec example payload, whose
computed total is 250. -/
theorem C3_witness :
    (catalogStore.configured = true ∧ itemsValid specCheckout.items = true ∧
      emailOk specCheckout.email = true ∧ computeTotal specCheckout.items = 250) ∧
    (∃ st' items, mapOrderItems specCheckout.items = some items ∧
      checkout catalogStore specCheckout =
        Except.ok (st', oidString catalogStore.counter,
          computeTotal specCheckout.items) ∧
      st'.colls "order" = catalogStore.colls "order" ++
        [("_id", Value.vOid catalogStore.counter) ::
          orderToDoc items (computeTotal specCheckout.items) specCheckout.email
            specCheckout.shipping_address] ∧
      lookupField (orderToDoc items (computeTotal specCheckout.items)
        specCheckout.email specCheckout.shipping_address) "status"
        = some (Value.vStr "pending") ∧
      lookupField (orderToDoc items (computeTotal specCheckout.items)
        specCheckout.email specCheckout.shipping_address) "currency"
        = some (Value.vStr "DZD") ∧
      computeTotal [] = 0) :=
  ⟨⟨rfl, by decide, by decide,
      by norm_num [computeTotal, specCheckout, specItems, itemTotal]⟩,
    C3_checkout_total_and_order catalogStore specCheckout rfl (by decide) (by decide)⟩

/-- Counterexample to C7 as stated: for the checkout payload whose single item
dict lacks its title, submitting it (any number of times) creates no order at
all — each identical submission aborts with a validation error from the Order
constructor — rather than two distinct orders. -/
theorem C7_counterexample :
    checkout catalogStore noTitleCheckout = Except.error Err.validationError :=
  rfl

/-- Claim C7 (amended): for every checkout payload accepted by Order validation
(each item dict has a product_id and a title, qty at least 1 when present,
email syntactically valid when present), submitting the identical payload twice
performs two independent inserts: both succeed with the same total, the two
returned order identifiers are distinct, and the order collection grows by two
documents; checkout deduplicates nothing. -/
theorem C7_checkout_not_idempotent (st : Store) (p : CheckoutIn)
    (hcfg : st.configured = true) (hi : itemsValid p.items = true)
    (he : emailOk p.email = true) (hctr : st.counter + 1 < 16 ^ 24) :
    ∃ st1 oid1 st2 oid2 t,
      checkout st p = Except.ok (st1, oid1, t) ∧
      checkout st1 p = Except.ok (st2, oid2, t) ∧
      oid1 ≠ oid2 ∧
      (st2.colls "order").length = (st.colls "order").length + 2 := by
  obtain ⟨items1, hmi1, hck1⟩ := checkout_ok st p hcfg hi he
  obtain ⟨items2, hmi2, hck2⟩ :=
    checkout_ok (st.insert "order" (("_id", Value.vOid st.counter) ::
      orderToDoc items1 (computeTotal p.items) p.email p.shipping_address))
      p hcfg hi he
  refine ⟨_, _, _, _, _, hck1, hck2, ?_, ?_⟩
  · intro hoid
    have hc1 : st.counter < 16 ^ 24 := by omega
    have := oidString_inj hc1 (by simpa [Store.insert_counter] using hctr) hoid
    simp [Store.insert_counter] at this
  · rw [Store.insert_colls_self, Store.insert_colls_self]
    simp

/-- Witness for C7 at the catalog store and the spec example payload. -/
theorem C7_witness :
    (catalogStore.configured = true ∧ itemsValid specCheckout.items = true ∧
      emailOk specCheckout.email = true ∧ catalogStore.counter + 1 < 16 ^ 24) ∧
    (∃ st1 oid1 st2 oid2 t,
      checkout catalogStore specCheckout = Except.ok (st1, oid1, t) ∧
      checkout st1 specCheckout = Except.ok (st2, oid2, t) ∧
      oid1 ≠ oid2 ∧
      (st2.colls "order").length = (catalogStore.colls "order").length + 2) :=
  ⟨⟨rfl, by decide, by decide, by decide⟩,
    C7_checkout_not_idempotent catalogStore specCheckout rfl (by decide)
      (by decide) (by decide)⟩

/-- Claim C10: whenever checkout succeeds, the returned and persisted total is
computed on the server as a function of the submitted items alone (the
`CheckoutIn` body has no total field a client could supply), and within that
computation an item missing its price contributes 0 and an item missing its
qty contributes its price once (qty defaults to 1). -/
theorem C10_total_server_computed (st : Store) (p : CheckoutIn) (st' : Store)
    (oid : String) (t : Rat) (h : checkout st p = Except.ok (st', oid, t)) :
    t = computeTotal p.items ∧
    (∃ d, st'.colls "order" = st.colls "order" ++ [d] ∧
      lookupField d "total" = some (Value.vRat (computeTotal p.items))) ∧
    (∀ it : ItemDict, it.price = none → itemTotal it = 0) ∧
    (∀ it : ItemDict, it.qty = none → itemTotal it = it.price.getD 0) := by
  obtain ⟨items, hmi, hcfg, he, hst, hoid, ht⟩ :=
    checkout_ok_inv st p st' oid t h
  refine ⟨ht, ⟨("_id", Value.vOid st.counter) ::
    orderToDoc items (computeTotal p.items) p.email p.shipping_address,
    ?_, rfl⟩, ?_, ?_⟩
  · rw [hst, Store.insert_colls_self]
  · intro it hpr
    simp [itemTotal, hpr]
  · intro it hq
    simp [itemTotal, hq]

/-- Witness for C10 at the catalog store and a payload exercising both
defaults: its first item has no price and no qty, its second no qty; the
computed total is 50. -/
theorem C10_witness :
    (∃ st' oid t, checkout catalogStore defaultsCheckout
        = Except.ok (st', oid, t) ∧
      (t = computeTotal defaultsCheckout.items ∧
        (∃ d, st'.colls "order" = catalogStore.colls "order" ++ [d] ∧
          lookupField d "total"
            = some (Value.vRat (computeTotal defaultsCheckout.items))) ∧
        (∀ it : ItemDict, it.price = none → itemTotal it = 0) ∧
        (∀ it : ItemDict, it.qty = none → itemTotal it = it.price.getD 0))) ∧
    computeTotal defaultsCheckout.items = 50 := by
  have hck := checkout_ok catalogStore defaultsCheckout rfl (by decide) (by decide)
  obtain ⟨items, hmi, h⟩ := hck
  exact ⟨⟨_, _, _, h, C10_total_server_computed catalogStore defaultsCheckout
      _ _ _ h⟩,
    by norm_num [computeTotal, defaultsCheckout, itemTotal]⟩

theorem post_review_notFound (st : Store) (pid : String) (r : Review)
    (hv : validReview r = true) (hcfg : st.configured = true)
    (hval : isValidObjectId pid = true)
    (hfind : findById st "product" (hexParse pid) = none) :
    post_review st pid r = Except.error Err.notFound := by
  simp [post_review, hv, add_review, hcfg, hval, hfind]

theorem post_review_invalidId (st : Store) (pid : String) (r : Review)
    (hv : validReview r = true) (hcfg : st.configured = true)
    (hval : isValidObjectId pid = false) :
    post_review st pid r = Except.error Err.invalidId := by
  simp [post_review, hv, add_review, hcfg, hval]

theorem post_review_ok_inv (st : Store) (pid : String) (r : Review) (st' : Store)
    (h : post_review st pid r = Except.ok st') :
    validReview r = true ∧ st.configured = true ∧ isValidObjectId pid = true ∧
      st' = st.insert "review" (("_id", Value.vOid st.counter) ::
        setField (reviewToDoc r) "product_id" (Value.vStr pid)) := by
  by_cases hv : validReview r = true
  · rw [post_review, if_pos hv] at h
    by_cases hcfg : st.configured = true
    · by_cases hval : isValidObjectId pid = true
      · cases hfind : findById st "product" (hexParse pid) with
        | none => simp [add_review, hcfg, hval, hfind] at h
        | some d0 =>
          simp only [add_review, hcfg, hval, hfind, if_true,
            create_document] at h
          have h1 := by simpa using h
          exact ⟨hv, hcfg, hval, h1.symm⟩
      · rw [Bool.not_eq_true] at hval
        simp [add_review, hcfg, hval] at h
    · rw [Bool.not_eq_true] at hcfg
      simp [add_review, hcfg] at h
  · rw [Bool.not_eq_true] at hv
    simp [post_review, hv] at h

/-- Counterexample to C4 as stated: the path product id "x" references no
existing product, yet the request does not fail with the not-found error —
`ObjectId("x")` raises `InvalidId` first, a different, uncaught failure (no
review is inserted either way). -/
theorem C4_counterexample :
    post_review catalogStore "x" sampleReview = Except.error Err.invalidId ∧
    Err.invalidId ≠ Err.notFound :=
  ⟨rfl, by decide⟩

/-- Claim C4 (amended): for every review submission whose path product id is a
well-formed ObjectId referencing no existing product, add_review fails with the
not-found error and inserts nothing; a submission whose path product id is
malformed also inserts nothing but fails with the uncaught invalid-id error
instead of not-found. (An error result leaves the store unchanged: the handler
raises before `create_document` runs.) -/
theorem C4_review_missing_product (st : Store) (pid : String) (r : Review)
    (hcfg : st.configured = true) (hv : validReview r = true) :
    (isValidObjectId pid = true → findById st "product" (hexParse pid) = none →
      post_review st pid r = Except.error Err.notFound) ∧
    (isValidObjectId pid = false →
      post_review st pid r = Except.error Err.invalidId) :=
  ⟨fun hval hfind => post_review_notFound st pid r hv hcfg hval hfind,
   fun hval => post_review_invalidId st pid r hv hcfg hval⟩

/-- Witness for C4: a well-formed ObjectId absent from the catalog store
yields the not-found error. -/
theorem C4_witness :
    (catalogStore.configured = true ∧ validReview sampleReview = true ∧
      isValidObjectId (oidString 7) = true ∧
      findById catalogStore "product" (hexParse (oidString 7)) = none) ∧
    post_review catalogStore (oidString 7) sampleReview
      = Except.error Err.notFound :=
  ⟨⟨rfl, by decide, by decide, by decide⟩,
    (C4_review_missing_product catalogStore (oidString 7) sampleReview rfl
      (by decide)).1 (by decide) (by decide)⟩

/-- Counterexample to C5 as stated: on a malformed identifier `get_product`
does not produce the not-found result — `ObjectId` raises `InvalidId`, an
uncaught failure distinct from the 404. -/
theorem C5_counterexample :
    get_product catalogStore "not-an-objectid" = Except.error Err.invalidId ∧
    Err.invalidId ≠ Err.notFound :=
  ⟨rfl, by decide⟩

/-- Claim C5 (amended): `get_product` fails with the definite not-found result
(distinct from the store-unavailable error) exactly when the identifier is a
well-formed ObjectId matching no document; a malformed identifier instead
aborts with the uncaught invalid-id error, distinct from both not-found and
the store-unavailable error. -/
theorem C5_get_product_failures (st : Store) (pid : String)
    (hcfg : st.configured = true) :
    (isValidObjectId pid = true → findById st "product" (hexParse pid) = none →
      get_product st pid = Except.error Err.notFound ∧
      Err.notFound ≠ Err.dbNotConfigured) ∧
    (isValidObjectId pid = false →
      get_product st pid = Except.error Err.invalidId ∧
      Err.invalidId ≠ Err.notFound ∧ Err.invalidId ≠ Err.dbNotConfigured) := by
  constructor
  · intro hval hfind
    exact ⟨by simp [get_product, hcfg, hval, hfind], by decide⟩
  · intro hval
    exact ⟨by simp [get_product, hcfg, hval], by decide, by decide⟩

/-- Witness for C5: a well-formed ObjectId absent from the catalog store
yields the not-found result. -/
theorem C5_witness :
    (catalogStore.configured = true ∧ isValidObjectId (oidString 9) = true ∧
      findById catalogStore "product" (hexParse (oidString 9)) = none) ∧
    (get_product catalogStore (oidString 9) = Except.error Err.notFound ∧
      Err.notFound ≠ Err.dbNotConfigured) :=
  ⟨⟨rfl, by decide, by decide⟩,
    (C5_get_product_failures catalogStore (oidString 9) rfl).1 (by decide)
      (by decide)⟩

/-- Claim C6: a Review body fails validation exactly when its rating lies
outside the integer range [1,5] (so ratings 1 and 5 are accepted), and a
rejected body is never persisted: the request aborts with the validation error
before the handler body, and thus before any insert, runs. -/
theorem C6_review_rating_bounds (r : Review) (st : Store) (pid : String) :
    (validReview r = false ↔ (r.rating < 1 ∨ 5 < r.rating)) ∧
    (validReview r = false →
      post_review st pid r = Except.error Err.validationError) := by
  constructor
  · rw [validReview, Bool.and_eq_false_iff]
    simp only [decide_eq_false_iff_not, not_le]
  · intro h
    simp [post_review, h]

/-- Witness for C6: rating 7 is rejected and not persisted. -/
theorem C6_witness :
    post_review catalogStore "anything" badReview
      = Except.error Err.validationError ∧ validReview badReview = false :=
  ⟨(C6_review_rating_bounds badReview catalogStore "anything").2 (by decide),
   by decide⟩

/-- Claim C9: whenever a review submission succeeds, the single review
document it appends carries as its product_id the product id from the request
path — the handler overwrites the payload's own product_id before inserting. -/
theorem C9_review_path_id_wins (st : Store) (pid : String) (r : Review)
    (st' : Store) (h : post_review st pid r = Except.ok st') :
    ∃ d, st'.colls "review" = st.colls "review" ++ [d] ∧
      lookupField d "product_id" = some (Value.vStr pid) := by
  obtain ⟨hv, hcfg, hval, hst⟩ := post_review_ok_inv st pid r st' h
  refine ⟨("_id", Value.vOid st.counter) ::
    setField (reviewToDoc r) "product_id" (Value.vStr pid), ?_, rfl⟩
  rw [hst, Store.insert_colls_self]

/-- Witness for C9: the submitted body names "client-supplied-id" but the
persisted review carries the path id. -/
theorem C9_witness :
    sampleReview.product_id ≠ oidString 0 ∧
    (∃ st', post_review catalogStore (oidString 0) sampleReview
        = Except.ok st' ∧
      ∃ d, st'.colls "review" = catalogStore.colls "review" ++ [d] ∧
        lookupField d "product_id" = some (Value.vStr (oidString 0))) := by
  refine ⟨by decide, _, rfl,
    C9_review_path_id_wins catalogStore (oidString 0) sampleReview _ rfl⟩

/-- Claim C8: when the store is not configured, every endpoint touching it
aborts with the store-unavailable error and persists nothing: list_products,
get_product and add_review check the handle themselves, while wishlist_add and
checkout reach the same check inside `create_document`; the review and
checkout bodies are assumed to pass the validation that runs first. -/
theorem C8_store_unavailable (st : Store) (hcfg : st.configured = false)
    (q category color size collection : Option String) (pid : String)
    (r : Review) (hr : validReview r = true) (w : String) (p : CheckoutIn)
    (hi : itemsValid p.items = true) (he : emailOk p.email = true) :
    list_products st q category color size collection
      = Except.error Err.dbNotConfigured ∧
    get_product st pid = Except.error Err.dbNotConfigured ∧
    post_review st pid r = Except.error Err.dbNotConfigured ∧
    wishlist_add st w = Except.error Err.dbNotConfigured ∧
    checkout st p = Except.error Err.dbNotConfigured := by
  obtain ⟨items, hmi⟩ := mapOrderItems_of_valid p.items hi
  refine ⟨?_, ?_, ?_, ?_, ?_⟩
  · simp [list_products, hcfg]
  · simp [get_product, hcfg]
  · simp [post_review, hr, add_review, hcfg]
  · simp [wishlist_add, create_document, hcfg]
  · simp [checkout, hmi, he, create_document, hcfg]

/-- Witness for C8 at the unconfigured store, one endpoint call each. -/
theorem C8_witness :
    (offStore.configured = false ∧ validReview sampleReview = true ∧
      itemsValid specCheckout.items = true ∧ emailOk specCheckout.email = true) ∧
    (list_products offStore none none none none none
        = Except.error Err.dbNotConfigured ∧
      get_product offStore (oidString 0) = Except.error Err.dbNotConfigured ∧
      post_review offStore (oidString 0) sampleReview
        = Except.error Err.dbNotConfigured ∧
      wishlist_add offStore "p1" = Except.error Err.dbNotConfigured ∧
      checkout offStore specCheckout = Except.error Err.dbNotConfigured) :=
  ⟨⟨rfl, by decide, by decide, by decide⟩,
    C8_store_unavailable offStore rfl none none none none none (oidString 0)
      sampleReview (by decide) "p1" specCheckout (by decide) (by decide)⟩

end MCA
